import Mathlib

/-!
Shallow embedding of the SOCKS5 core of the `socker` library
(`src/lib/src/socks5/...`) over byte lists.

Bytes are modelled as `Nat` values; wherever the Rust source performs a
lossy `as u8` cast the embedding writes `% 256` explicitly.  Streams are
modelled as `List Nat`: a decoder (`read_from`) consumes a prefix of its
input and returns the decoded value together with the remaining input, or
a `ConversionError`; an encoder (`write_to`) produces the list of bytes it
writes (writes to an in-memory sink never fail in the source, so encoders
are total).  Exact-length reads that run past the end of the input fail
with `ConversionError.IoError`, mirroring `read_exact` hitting EOF.
-/

set_option autoImplicit false

/-- `ConversionError` from `src/lib/src/socks5/proto/mod.rs`.  The payload
of the Rust `IoError` variant (an `std::io::Error`) is irrelevant to the
protocol logic and is dropped. -/
inductive ConversionError where
  | InvalidProtocolVersion (version : Nat)
  | MalformedMessage
  | IoError
deriving DecidableEq

/-- `Status` from `proto/mod.rs`: a newtype over one byte. -/
structure Status where
  val : Nat
deriving DecidableEq

/-- `Status::is_success`: `matches!(self.0, 0x00)`. -/
def Status.is_success (s : Status) : Bool :=
  s.val == 0

/-- `Status::is_failure`: `matches!(self.0, 0x01 ..= 0xFF)`. -/
def Status.is_failure (s : Status) : Bool :=
  1 ≤ s.val && s.val ≤ 255

/-- The `PartialEq` implementation for `Status`:
`self.is_success() == other.is_success()`. -/
def Status.eq (a b : Status) : Bool :=
  a.is_success == b.is_success

/-- `Address` from `proto/mod.rs`.  IPv4/IPv6 octets and domain bytes are
byte lists; well-formed values have 4 (resp. 16) octets and domains of at
most 255 bytes (`Address.wf`). -/
inductive Address where
  | Ipv4 (octets : List Nat)
  | Domain (domain : List Nat)
  | Ipv6 (octets : List Nat)
deriving DecidableEq

/-- Well-formedness of an `Address` value as represented in the Rust
source: `Ipv4Addr` has 4 octets, `Ipv6Addr` has 16, and a domain stored in
a `Box<[u8]>` is well-formed for the wire format when its length fits in
one byte. -/
def Address.wf : Address → Prop
  | .Ipv4 octets => octets.length = 4
  | .Domain domain => domain.length ≤ 255
  | .Ipv6 octets => octets.length = 16

instance : DecidablePred Address.wf := by
  intro a
  cases a <;> simp [Address.wf] <;> infer_instance

/-- `Address::write_to` (`proto/mod.rs:154-180`): tag byte, then the raw
octets, or for `Domain` the length cast with `as u8` (hence `% 256`)
followed by all domain bytes. -/
def Address.write_to : Address → List Nat
  | .Ipv4 octets => 1 :: octets
  | .Domain domain => [3, domain.length % 256] ++ domain
  | .Ipv6 octets => 4 :: octets

/-- `Address::read_from` (`proto/mod.rs:182-211`): read the tag byte,
dispatch on `IP_V4`/`DOMAIN_NAME`/`IP_V6`, any other tag is
`MalformedMessage`. -/
def Address.read_from (input : List Nat) : Except ConversionError (Address × List Nat) :=
  match input with
  | [] => .error .IoError
  | t :: rest =>
    if t = 1 then
      if 4 ≤ rest.length then .ok (.Ipv4 (rest.take 4), rest.drop 4)
      else .error .IoError
    else if t = 3 then
      match rest with
      | [] => .error .IoError
      | len :: rest2 =>
        if len ≤ rest2.length then .ok (.Domain (rest2.take len), rest2.drop len)
        else .error .IoError
    else if t = 4 then
      if 16 ≤ rest.length then .ok (.Ipv6 (rest.take 16), rest.drop 16)
      else .error .IoError
    else .error .MalformedMessage

/-- Big-endian encoding of a 16-bit port, as `u16::to_be_bytes`. -/
def portBytes (port : Nat) : List Nat :=
  [port / 256 % 256, port % 256]

/-- `ClientGreeting` (`proto/messages.rs`). -/
structure ClientGreeting where
  authentication_methods : List Nat
deriving DecidableEq

/-- `ClientGreeting::write_to`: version, method count cast `as _` to `u8`
(hence `% 256`), then one byte per method. -/
def ClientGreeting.write_to (g : ClientGreeting) : List Nat :=
  [5, g.authentication_methods.length % 256] ++ g.authentication_methods

/-- `ClientGreeting::read_from`: version byte (must be 5), method count,
then exactly that many method bytes. -/
def ClientGreeting.read_from (input : List Nat) :
    Except ConversionError (ClientGreeting × List Nat) :=
  match input with
  | [] => .error .IoError
  | ver :: rest =>
    if ver = 5 then
      match rest with
      | [] => .error .IoError
      | n :: rest2 =>
        if n ≤ rest2.length then .ok (⟨rest2.take n⟩, rest2.drop n)
        else .error .IoError
    else .error (.InvalidProtocolVersion ver)

/-- `ServerChoice` (`proto/messages.rs`). -/
structure ServerChoice where
  chosen_authentication_method : Nat
deriving DecidableEq

/-- `ServerChoice::write_to`: version byte then the chosen method. -/
def ServerChoice.write_to (c : ServerChoice) : List Nat :=
  [5, c.chosen_authentication_method]

/-- `ServerChoice::read_from`: one `read_exact` of two bytes (so fewer
than two available bytes is an I/O error), then the version check. -/
def ServerChoice.read_from (input : List Nat) :
    Except ConversionError (ServerChoice × List Nat) :=
  match input with
  | b0 :: b1 :: rest =>
    if b0 = 5 then .ok (⟨b1⟩, rest)
    else .error (.InvalidProtocolVersion b0)
  | _ => .error .IoError

/-- `Request` (`proto/messages.rs`). -/
structure Request where
  command : Nat
  address : Address
  port : Nat
deriving DecidableEq

/-- `Request::write_to`: version, command, RSV `0x00`, the address, then
the big-endian port. -/
def Request.write_to (r : Request) : List Nat :=
  [5, r.command, 0] ++ Address.write_to r.address ++ portBytes r.port

/-- `Request::read_from`: version (must be 5), command, RSV consumed but
not validated, address, then two port bytes. -/
def Request.read_from (input : List Nat) : Except ConversionError (Request × List Nat) :=
  match input with
  | [] => .error .IoError
  | ver :: rest =>
    if ver = 5 then
      match rest with
      | [] => .error .IoError
      | cmd :: rest2 =>
        match rest2 with
        | [] => .error .IoError
        | _rsv :: rest3 =>
          match Address.read_from rest3 with
          | .error e => .error e
          | .ok (addr, rest4) =>
            match rest4 with
            | hi :: lo :: rest5 => .ok (⟨cmd, addr, hi * 256 + lo⟩, rest5)
            | _ => .error .IoError
    else .error (.InvalidProtocolVersion ver)

/-- `Response` (`proto/messages.rs`). -/
structure Response where
  reply : Nat
  address : Address
  port : Nat
deriving DecidableEq

/-- `Response::write_to`: version, reply, RSV `0x00`, the address, then
the big-endian port. -/
def Response.write_to (r : Response) : List Nat :=
  [5, r.reply, 0] ++ Address.write_to r.address ++ portBytes r.port

/-- `Response::read_from`: version (must be 5), reply, RSV consumed but
not validated, address, then two port bytes. -/
def Response.read_from (input : List Nat) : Except ConversionError (Response × List Nat) :=
  match input with
  | [] => .error .IoError
  | ver :: rest =>
    if ver = 5 then
      match rest with
      | [] => .error .IoError
      | rep :: rest2 =>
        match rest2 with
        | [] => .error .IoError
        | _rsv :: rest3 =>
          match Address.read_from rest3 with
          | .error e => .error e
          | .ok (addr, rest4) =>
            match rest4 with
            | hi :: lo :: rest5 => .ok (⟨rep, addr, hi * 256 + lo⟩, rest5)
            | _ => .error .IoError
    else .error (.InvalidProtocolVersion ver)

/-- `auth::username_password::ClientAuthenticationRequest`
(`proto/messages.rs`). -/
structure ClientAuthenticationRequest where
  username : List Nat
  password : List Nat
deriving DecidableEq

/-- `ClientAuthenticationRequest::write_to`: sub-negotiation version
`0x01`, then each credential preceded by its length cast `as u8`
(hence `% 256`). -/
def ClientAuthenticationRequest.write_to (r : ClientAuthenticationRequest) : List Nat :=
  [1, r.username.length % 256] ++ r.username ++ [r.password.length % 256] ++ r.password

/-- `ClientAuthenticationRequest::read_from`: version (must be 1), then
each length-prefixed credential. -/
def ClientAuthenticationRequest.read_from (input : List Nat) :
    Except ConversionError (ClientAuthenticationRequest × List Nat) :=
  match input with
  | [] => .error .IoError
  | ver :: rest =>
    if ver = 1 then
      match rest with
      | [] => .error .IoError
      | ulen :: rest2 =>
        if ulen ≤ rest2.length then
          match rest2.drop ulen with
          | [] => .error .IoError
          | plen :: rest3 =>
            if plen ≤ rest3.length then
              .ok (⟨rest2.take ulen, rest3.take plen⟩, rest3.drop plen)
            else .error .IoError
        else .error .IoError
    else .error (.InvalidProtocolVersion ver)

/-- `auth::username_password::ServerResponse` (`proto/messages.rs`). -/
structure ServerResponse where
  status : Status
deriving DecidableEq

/-- `ServerResponse::write_to`: one write of `[AUTH_VERSION, status]`. -/
def ServerResponse.write_to (r : ServerResponse) : List Nat :=
  [1, r.status.val]

/-- `ServerResponse::read_from`: one `read_exact` of two bytes (so fewer
than two available bytes is an I/O error), then the version check. -/
def ServerResponse.read_from (input : List Nat) :
    Except ConversionError (ServerResponse × List Nat) :=
  match input with
  | b0 :: b1 :: rest =>
    if b0 = 1 then .ok (⟨⟨b1⟩⟩, rest)
    else .error (.InvalidProtocolVersion b0)
  | _ => .error .IoError

instance {ε α : Type} [DecidableEq ε] [DecidableEq α] : DecidableEq (Except ε α) := fun a b =>
  match a, b with
  | .error x, .error y =>
    if h : x = y then .isTrue (h ▸ rfl) else .isFalse (fun hc => h (Except.error.inj hc))
  | .ok x, .ok y =>
    if h : x = y then .isTrue (h ▸ rfl) else .isFalse (fun hc => h (Except.ok.inj hc))
  | .error _, .ok _ => .isFalse (fun hc => Except.noConfusion hc)
  | .ok _, .error _ => .isFalse (fun hc => Except.noConfusion hc)

/-- `ServerError` from `src/lib/src/socks5/server/mod.rs`. -/
inductive ServerError where
  | IoError
  | Protocol (e : ConversionError)
  | NoAcceptableAuthMethods
  | AuthenticationFailed
  | CommandNotSupported (cmd : Nat)
  | RequestFailed (reply : Nat)
deriving DecidableEq

/-- `ClientError` from `src/lib/src/socks5/client/mod.rs`. -/
inductive ClientError where
  | IoError
  | Protocol (e : ConversionError)
  | UnsupportedAuthMethod (method : Nat)
  | AuthenticationFailed
  | RequestFailed (reply : Nat)
deriving DecidableEq

/-- The default `Server::perform_handshake` (`server/mod.rs:99-118`),
which `Socks5Server` inherits unchanged: read the `ClientGreeting`; if the
offered methods contain `NO_AUTHENTICATION` (byte 0) choose it and write a
`ServerChoice` carrying it; otherwise return `NoAcceptableAuthMethods`
before any byte is written.  Result: the outcome (chosen method byte and
remaining input on success) paired with the bytes written to the stream. -/
def Server.perform_handshake (input : List Nat) :
    Except ServerError (Nat × List Nat) × List Nat :=
  match ClientGreeting.read_from input with
  | .error e => (.error (.Protocol e), [])
  | .ok (greeting, rest) =>
    if greeting.authentication_methods.contains 0 then
      (.ok (0, rest), ServerChoice.write_to ⟨0⟩)
    else
      (.error .NoAcceptableAuthMethods, [])

/-- `default_authenticate_impl` (`server/mod.rs:156-161`): only
`NO_AUTHENTICATION` (byte 0) succeeds. -/
def default_authenticate_impl (method : Nat) : Except ServerError Unit :=
  if method = 0 then .ok ()
  else .error .NoAcceptableAuthMethods

/-- `Socks5Server::authenticate` (`server/tokio.rs:160-180`) with the
configured credentials passed explicitly: for `USERNAME_PASSWORD` (byte 2)
read a `ClientAuthenticationRequest` and compare both fields byte-exactly
to the credentials, returning `AuthenticationFailed` on mismatch; any
other method goes through `default_authenticate_impl`.  Result: the
outcome (remaining input on success) paired with the bytes written to the
stream. -/
def Socks5Server.authenticate (username password : List Nat) (method : Nat)
    (input : List Nat) : Except ServerError (List Nat) × List Nat :=
  if method = 2 then
    match ClientAuthenticationRequest.read_from input with
    | .error e => (.error (.Protocol e), [])
    | .ok (req, rest) =>
      if req.username ≠ username ∨ req.password ≠ password then
        (.error .AuthenticationFailed, [])
      else
        (.ok rest, [])
  else
    match default_authenticate_impl method with
    | .ok _ => (.ok input, [])
    | .error e => (.error e, [])

/-- `username_password_auth_impl` (`client/mod.rs:128-147`): write the
`ClientAuthenticationRequest`, read the `ServerResponse`, and fail with
`AuthenticationFailed` when its status `is_failure()`.  Result: the
outcome (remaining input on success) paired with the bytes written to the
stream. -/
def username_password_auth_impl (username password : List Nat) (input : List Nat) :
    Except ClientError (List Nat) × List Nat :=
  let written := ClientAuthenticationRequest.write_to ⟨username, password⟩
  match ServerResponse.read_from input with
  | .error e => (.error (.Protocol e), written)
  | .ok (resp, rest) =>
    if resp.status.is_failure then (.error .AuthenticationFailed, written)
    else (.ok rest, written)

/-!
Helper lemmas shared by the round-trip results.
-/

theorem take_append_len {α : Type} (l r : List α) (n : Nat) (h : l.length = n) :
    (l ++ r).take n = l := by
  subst h
  exact List.take_left l r

theorem drop_append_len {α : Type} (l r : List α) (n : Nat) (h : l.length = n) :
    (l ++ r).drop n = r := by
  subst h
  exact List.drop_left l r

/-- Decoding the encoding of a well-formed address, followed by any
trailing bytes, yields the address back and leaves the trailing bytes
unconsumed. -/
theorem address_write_read (a : Address) (ha : a.wf) (rest : List Nat) :
    Address.read_from (Address.write_to a ++ rest) = .ok (a, rest) := by
  cases a with
  | Ipv4 o =>
    simp only [Address.wf] at ha
    have ht : (o ++ rest).take 4 = o := take_append_len o rest 4 ha
    have hd : (o ++ rest).drop 4 = rest := drop_append_len o rest 4 ha
    simp [Address.write_to, Address.read_from, List.length_append, ha, ht, hd]
  | Domain d =>
    simp only [Address.wf] at ha
    have hm : d.length % 256 = d.length := Nat.mod_eq_of_lt (by omega)
    have ht : (d ++ rest).take d.length = d := take_append_len d rest _ rfl
    have hd : (d ++ rest).drop d.length = rest := drop_append_len d rest _ rfl
    simp [Address.write_to, Address.read_from, List.length_append, hm, ht, hd]
  | Ipv6 o =>
    simp only [Address.wf] at ha
    have ht : (o ++ rest).take 16 = o := take_append_len o rest 16 ha
    have hd : (o ++ rest).drop 16 = rest := drop_append_len o rest 16 ha
    simp [Address.write_to, Address.read_from, List.length_append, ha, ht, hd]

/-- `ClientGreeting` round-trip for greetings with at most 255 methods. -/
theorem clientGreeting_write_read (g : ClientGreeting)
    (h : g.authentication_methods.length ≤ 255) :
    ClientGreeting.read_from (ClientGreeting.write_to g) = .ok (g, []) := by
  obtain ⟨ms⟩ := g
  simp only at h
  have hm : ms.length % 256 = ms.length := Nat.mod_eq_of_lt (by omega)
  simp [ClientGreeting.write_to, ClientGreeting.read_from, hm, List.take_length,
    List.drop_length]

/-- `ServerChoice` round-trip. -/
theorem serverChoice_write_read (c : ServerChoice) :
    ServerChoice.read_from (ServerChoice.write_to c) = .ok (c, []) := by
  obtain ⟨m⟩ := c
  simp [ServerChoice.write_to, ServerChoice.read_from]

/-- The big-endian port bytes decode back to the port for 16-bit values. -/
theorem portBytes_decode (port : Nat) (h : port < 65536) :
    port / 256 % 256 * 256 + port % 256 = port := by
  omega

/-- `Request` round-trip for well-formed addresses and 16-bit ports. -/
theorem request_write_read (r : Request) (ha : r.address.wf) (hp : r.port < 65536) :
    Request.read_from (Request.write_to r) = .ok (r, []) := by
  obtain ⟨cmd, addr, port⟩ := r
  simp only at ha hp
  have haddr := address_write_read addr ha [port / 256 % 256, port % 256]
  have hport := portBytes_decode port hp
  simp [Request.write_to, Request.read_from, portBytes, haddr, hport]

/-- `Response` round-trip for well-formed addresses and 16-bit ports. -/
theorem response_write_read (r : Response) (ha : r.address.wf) (hp : r.port < 65536) :
    Response.read_from (Response.write_to r) = .ok (r, []) := by
  obtain ⟨rep, addr, port⟩ := r
  simp only at ha hp
  have haddr := address_write_read addr ha [port / 256 % 256, port % 256]
  have hport := portBytes_decode port hp
  simp [Response.write_to, Response.read_from, portBytes, haddr, hport]

/-- `ClientAuthenticationRequest` round-trip for credentials of at most
255 bytes each. -/
theorem clientAuthRequest_write_read (r : ClientAuthenticationRequest)
    (hu : r.username.length ≤ 255) (hp : r.password.length ≤ 255) :
    ClientAuthenticationRequest.read_from (ClientAuthenticationRequest.write_to r) =
      .ok (r, []) := by
  obtain ⟨u, p⟩ := r
  simp only at hu hp
  have hmu : u.length % 256 = u.length := Nat.mod_eq_of_lt (by omega)
  have hmp : p.length % 256 = p.length := Nat.mod_eq_of_lt (by omega)
  have ht : (u ++ (p.length :: p)).take u.length = u := take_append_len u _ _ rfl
  have hd : (u ++ (p.length :: p)).drop u.length = p.length :: p :=
    drop_append_len u _ _ rfl
  simp [ClientAuthenticationRequest.write_to, ClientAuthenticationRequest.read_from,
    hmu, hmp, ht, hd, List.length_append, List.take_length, List.drop_length]

/-- `ServerResponse` round-trip. -/
theorem serverResponse_write_read (r : ServerResponse) :
    ServerResponse.read_from (ServerResponse.write_to r) = .ok (r, []) := by
  obtain ⟨⟨v⟩⟩ := r
  simp [ServerResponse.write_to, ServerResponse.read_from]

/-!
Claim theorems.
-/

/-- Claim C1 (code evaluated at the failing input).  The spec claims the
server handshake selects a method from the intersection of offered and
supported sets — in particular that a client offering only
`USERNAME_PASSWORD` (byte 2) to a credential-configured `Socks5Server` is
answered with a `ServerChoice` selecting `USERNAME_PASSWORD`.
`Socks5Server` inherits the default `Server::perform_handshake`, which
only ever selects `NO_AUTHENTICATION`: on the greeting `05 01 02` it fails
with `NoAcceptableAuthMethods` and writes no bytes at all. -/
theorem c1_username_password_only_rejected :
    Server.perform_handshake [5, 1, 2] = (.error .NoAcceptableAuthMethods, []) := by
  decide

/-- Claim C2 counterexample.  On the greeting `05 01 01` (GSSAPI only,
empty intersection with the supported set) the handshake does fail with
`NoAcceptableAuthMethods`, but it writes no bytes — in particular not the
`ServerChoice` frame `[5, 255]` the claim requires. -/
theorem c2_counterexample :
    Server.perform_handshake [5, 1, 1] = (.error .NoAcceptableAuthMethods, []) ∧
    (Server.perform_handshake [5, 1, 1]).2 ≠ [5, 255] := by
  decide

/-- Claim C2 (amended).  For every client greeting that decodes
successfully and whose offered methods do not contain
`NO_AUTHENTICATION` (the only method the inherited handshake supports, so
the intersection with the supported set is empty), the server handshake
fails with `NoAcceptableAuthMethods` and writes no bytes — no
`ServerChoice` carrying `0xFF` is sent. -/
theorem c2_empty_intersection_fails_silently (input : List Nat) (g : ClientGreeting)
    (rest : List Nat) (hread : ClientGreeting.read_from input = .ok (g, rest))
    (hno : g.authentication_methods.contains 0 = false) :
    Server.perform_handshake input = (.error .NoAcceptableAuthMethods, []) := by
  simp [Server.perform_handshake, hread, hno]
  simpa using hno

theorem c2_empty_intersection_fails_silently_witness :
    Server.perform_handshake [5, 2, 1, 3] = (.error .NoAcceptableAuthMethods, []) :=
  c2_empty_intersection_fails_silently [5, 2, 1, 3] ⟨[1, 3]⟩ [] (by decide) (by decide)

/-- Claim C3 (code evaluated at the failing inputs).  The spec claims the
`USERNAME_PASSWORD` step writes a sub-negotiation `ServerResponse` with
status 0 on a credential match and status 1 before failing on a mismatch.
With credentials `user`/`pw`, `Socks5Server::authenticate` writes no bytes
in either case: on the mismatching request `01 01 61 01 62` it fails with
`AuthenticationFailed` having written nothing, and on the matching request
`01 04 75 73 65 72 02 70 77` it succeeds having written nothing. -/
theorem c3_no_server_response_written :
    Socks5Server.authenticate [117, 115, 101, 114] [112, 119] 2 [1, 1, 97, 1, 98] =
      (.error .AuthenticationFailed, []) ∧
    Socks5Server.authenticate [117, 115, 101, 114] [112, 119] 2
      [1, 4, 117, 115, 101, 114, 2, 112, 119] = (.ok [], []) := by
  decide

set_option maxRecDepth 8000 in
/-- Claim C4 counterexample.  Encoding a 256-byte domain is not rejected:
`Address::write_to` succeeds, casting the length with `as u8`, so the
frame carries the truncated length prefix `0` followed by all 256 domain
bytes — and decoding that frame yields the empty domain with the 256
bytes left over, not the original value. -/
theorem c4_counterexample :
    Address.write_to (.Domain (List.replicate 256 97)) = [3, 0] ++ List.replicate 256 97 ∧
    Address.read_from (Address.write_to (.Domain (List.replicate 256 97))) =
      .ok (.Domain [], List.replicate 256 97) := by
  decide

/-- Claim C4 (amended).  Encoding a `DOMAIN_NAME` address never fails:
the length prefix is the domain length reduced modulo 256 followed by all
domain bytes (so domains longer than 255 bytes produce a malformed frame
instead of being rejected); for domains of length 0..255 the
encode-then-decode round-trip is byte-exact. -/
theorem c4_domain_truncates_and_roundtrips :
    (∀ domain : List Nat,
      Address.write_to (.Domain domain) = [3, domain.length % 256] ++ domain) ∧
    (∀ domain : List Nat, domain.length ≤ 255 →
      Address.read_from (Address.write_to (.Domain domain)) = .ok (.Domain domain, [])) := by
  refine ⟨fun domain => rfl, fun domain hd => ?_⟩
  have h := address_write_read (.Domain domain) hd []
  simpa using h

theorem c4_domain_truncates_and_roundtrips_witness :
    Address.read_from (Address.write_to (.Domain [101, 120])) = .ok (.Domain [101, 120], []) :=
  c4_domain_truncates_and_roundtrips.2 [101, 120] (by decide)

set_option maxRecDepth 8000 in
/-- Claim C5 counterexample.  With a 256-byte username the client does
not fail locally: `username_password_auth_impl` writes the request to the
wire (with the username length byte truncated to `0`) before reading the
server response — here with an empty input it then fails on the read, but
the bytes have already been written, contradicting "writes no bytes to
the stream". -/
theorem c5_counterexample :
    (username_password_auth_impl (List.replicate 256 97) [112, 119] []).2 =
      [1, 0] ++ List.replicate 256 97 ++ [2, 112, 119] ∧
    (username_password_auth_impl (List.replicate 256 97) [112, 119] []).2 ≠ [] := by
  decide

/-- Claim C5 (amended).  The client performs no credential length check:
`username_password_auth_impl` always writes the encoded
`ClientAuthenticationRequest` (whose length bytes are the credential
lengths reduced modulo 256, so over-long credentials produce a malformed
frame on the wire instead of a local error); and whenever a
`ServerResponse` is successfully received, the call fails with
`AuthenticationFailed` exactly when the response status byte is
non-zero. -/
theorem c5_no_length_check_and_status_failure (username password input : List Nat)
    (hbytes : ∀ b ∈ input, b < 256) :
    (username_password_auth_impl username password input).2 =
      ClientAuthenticationRequest.write_to ⟨username, password⟩ ∧
    ∀ resp rest, ServerResponse.read_from input = .ok (resp, rest) →
      ((username_password_auth_impl username password input).1 =
        .error .AuthenticationFailed ↔ resp.status.val ≠ 0) := by
  constructor
  · cases h : ServerResponse.read_from input with
    | error e => simp [username_password_auth_impl, h]
    | ok v =>
      obtain ⟨resp, rest⟩ := v
      by_cases hf : resp.status.is_failure <;>
        simp [username_password_auth_impl, h, hf]
  · intro resp rest h
    match input, hbytes, h with
    | [], _, h => simp [ServerResponse.read_from] at h
    | [b0], _, h => simp [ServerResponse.read_from] at h
    | b0 :: b1 :: rest', hbytes, h =>
      by_cases hb0 : b0 = 1
      · subst hb0
        simp [ServerResponse.read_from] at h
        obtain ⟨hresp, hrest⟩ := h
        subst hresp
        have hb1 : b1 < 256 := hbytes b1 (by simp)
        by_cases hz : b1 = 0
        · subst hz
          simp [username_password_auth_impl, ServerResponse.read_from, Status.is_failure]
        · have h1 : 1 ≤ b1 := Nat.one_le_iff_ne_zero.mpr hz
          have h2 : b1 ≤ 255 := by omega
          simp [username_password_auth_impl, ServerResponse.read_from, Status.is_failure,
            h1, h2, hz]
      · simp [ServerResponse.read_from, hb0] at h

theorem c5_no_length_check_and_status_failure_witness :
    (username_password_auth_impl [117, 115, 101, 114] [112, 119] [1, 1]).2 =
      ClientAuthenticationRequest.write_to ⟨[117, 115, 101, 114], [112, 119]⟩ ∧
    ((username_password_auth_impl [117, 115, 101, 114] [112, 119] [1, 1]).1 =
      .error .AuthenticationFailed ↔ (Status.mk 1).val ≠ 0) :=
  ⟨(c5_no_length_check_and_status_failure [117, 115, 101, 114] [112, 119] [1, 1]
      (by decide)).1,
   (c5_no_length_check_and_status_failure [117, 115, 101, 114] [112, 119] [1, 1]
      (by decide)).2 ⟨⟨1⟩⟩ [] (by decide)⟩

/-- Claim C6.  Encode-then-decode is the identity for every well-formed
value of each SOCKS5 message type: `ClientGreeting` (any list of at most
255 methods, the empty list included), `ServerChoice`, `Request` and
`Response` (any well-formed address — all three variants — and 16-bit
port), and the two username/password sub-negotiation messages (credential
lengths at most 255). -/
theorem c6_message_roundtrip :
    (∀ g : ClientGreeting, g.authentication_methods.length ≤ 255 →
      ClientGreeting.read_from (ClientGreeting.write_to g) = .ok (g, [])) ∧
    (∀ c : ServerChoice, ServerChoice.read_from (ServerChoice.write_to c) = .ok (c, [])) ∧
    (∀ r : Request, r.address.wf → r.port < 65536 →
      Request.read_from (Request.write_to r) = .ok (r, [])) ∧
    (∀ r : Response, r.address.wf → r.port < 65536 →
      Response.read_from (Response.write_to r) = .ok (r, [])) ∧
    (∀ a : ClientAuthenticationRequest, a.username.length ≤ 255 →
      a.password.length ≤ 255 →
      ClientAuthenticationRequest.read_from (ClientAuthenticationRequest.write_to a) =
        .ok (a, [])) ∧
    (∀ s : ServerResponse, ServerResponse.read_from (ServerResponse.write_to s) = .ok (s, [])) :=
  ⟨clientGreeting_write_read, serverChoice_write_read, request_write_read,
   response_write_read, clientAuthRequest_write_read, serverResponse_write_read⟩

theorem c6_message_roundtrip_witness :
    ClientGreeting.read_from (ClientGreeting.write_to ⟨[]⟩) = .ok (⟨[]⟩, []) ∧
    Request.read_from (Request.write_to ⟨1, .Domain [101, 120], 443⟩) =
      .ok (⟨1, .Domain [101, 120], 443⟩, []) ∧
    Request.read_from (Request.write_to ⟨1, .Ipv4 [1, 2, 3, 4], 80⟩) =
      .ok (⟨1, .Ipv4 [1, 2, 3, 4], 80⟩, []) ∧
    Response.read_from (Response.write_to ⟨0, .Ipv6 (List.replicate 16 0), 0⟩) =
      .ok (⟨0, .Ipv6 (List.replicate 16 0), 0⟩, []) ∧
    ClientAuthenticationRequest.read_from
      (ClientAuthenticationRequest.write_to ⟨[117, 115, 101, 114], [112, 119]⟩) =
      .ok (⟨[117, 115, 101, 114], [112, 119]⟩, []) :=
  ⟨c6_message_roundtrip.1 ⟨[]⟩ (by decide),
   c6_message_roundtrip.2.2.1 ⟨1, .Domain [101, 120], 443⟩ (by decide) (by decide),
   c6_message_roundtrip.2.2.1 ⟨1, .Ipv4 [1, 2, 3, 4], 80⟩ (by decide) (by decide),
   c6_message_roundtrip.2.2.2.1 ⟨0, .Ipv6 (List.replicate 16 0), 0⟩ (by decide) (by decide),
   c6_message_roundtrip.2.2.2.2.1 ⟨[117, 115, 101, 114], [112, 119]⟩ (by decide) (by decide)⟩

/-- Claim C7 counterexample.  `ServerChoice::read_from` performs one
exact read of two bytes before checking the version, so on the one-byte
input `[4]` — whose first byte is not `0x05` — decoding fails with an I/O
error, not with `InvalidProtocolVersion 4` as the claim requires of every
input byte sequence. -/
theorem c7_counterexample :
    ServerChoice.read_from [4] = .error .IoError ∧
    ServerChoice.read_from [4] ≠ .error (.InvalidProtocolVersion 4) := by
  decide

/-- Claim C7 (amended).  For every input whose first byte is not the
expected version (`0x05` for the four main messages, `0x01` for the two
sub-negotiation messages), decoding yields `InvalidProtocolVersion`
carrying exactly that first byte — provided the input covers the
decoder's first fixed-size read: one byte suffices for `ClientGreeting`,
`Request`, `Response` and `ClientAuthenticationRequest`, while
`ServerChoice` and `ServerResponse` read two bytes at once and need a
second byte present. -/
theorem c7_version_rejection :
    (∀ b rest, b ≠ 5 →
      ClientGreeting.read_from (b :: rest) = .error (.InvalidProtocolVersion b)) ∧
    (∀ b b1 rest, b ≠ 5 →
      ServerChoice.read_from (b :: b1 :: rest) = .error (.InvalidProtocolVersion b)) ∧
    (∀ b rest, b ≠ 5 →
      Request.read_from (b :: rest) = .error (.InvalidProtocolVersion b)) ∧
    (∀ b rest, b ≠ 5 →
      Response.read_from (b :: rest) = .error (.InvalidProtocolVersion b)) ∧
    (∀ b rest, b ≠ 1 →
      ClientAuthenticationRequest.read_from (b :: rest) =
        .error (.InvalidProtocolVersion b)) ∧
    (∀ b b1 rest, b ≠ 1 →
      ServerResponse.read_from (b :: b1 :: rest) = .error (.InvalidProtocolVersion b)) := by
  refine ⟨?_, ?_, ?_, ?_, ?_, ?_⟩ <;> intros <;>
    simp [ClientGreeting.read_from, ServerChoice.read_from, Request.read_from,
      Response.read_from, ClientAuthenticationRequest.read_from,
      ServerResponse.read_from, *]

theorem c7_version_rejection_witness :
    ClientGreeting.read_from [4, 1, 0] = .error (.InvalidProtocolVersion 4) ∧
    ServerResponse.read_from [5, 0] = .error (.InvalidProtocolVersion 5) :=
  ⟨c7_version_rejection.1 4 [1, 0] (by decide),
   c7_version_rejection.2.2.2.2.2 5 0 [] (by decide)⟩

/-- Claim C8.  Decoding an address whose leading tag byte is none of
`0x01` (IP_V4), `0x03` (DOMAIN_NAME) or `0x04` (IP_V6) yields
`MalformedMessage`, whatever bytes follow. -/
theorem c8_unknown_address_tag (t : Nat) (rest : List Nat)
    (h1 : t ≠ 1) (h3 : t ≠ 3) (h4 : t ≠ 4) :
    Address.read_from (t :: rest) = .error .MalformedMessage := by
  simp [Address.read_from, h1, h3, h4]

theorem c8_unknown_address_tag_witness :
    Address.read_from [2, 0, 0] = .error .MalformedMessage :=
  c8_unknown_address_tag 2 [0, 0] (by decide) (by decide) (by decide)

/-- Claim C9.  `Status(0)` is a success; every non-zero byte is a
failure; the `PartialEq` implementation equates two status bytes exactly
when both are successes or both are failures; in particular `Status(1)`
equals `Status(255)` and `Status(0)` does not equal `Status(1)`. -/
theorem c9_status_semantics :
    (Status.mk 0).is_success = true ∧
    (∀ b : Nat, b ≠ 0 → b ≤ 255 → (Status.mk b).is_failure = true) ∧
    (∀ a b : Status, a.val ≤ 255 → b.val ≤ 255 →
      (Status.eq a b = true ↔
        ((a.is_success = true ∧ b.is_success = true) ∨
         (a.is_failure = true ∧ b.is_failure = true)))) ∧
    Status.eq ⟨1⟩ ⟨255⟩ = true ∧ Status.eq ⟨0⟩ ⟨1⟩ = false := by
  refine ⟨rfl, ?_, ?_, rfl, rfl⟩
  · intro b hb hle
    simp [Status.is_failure]
    omega
  · intro a b ha hb
    simp [Status.eq, Status.is_success, Status.is_failure]
    omega

theorem c9_status_semantics_witness :
    (Status.mk 7).is_failure = true ∧
    (Status.eq ⟨2⟩ ⟨3⟩ = true ↔
      (((Status.mk 2).is_success = true ∧ (Status.mk 3).is_success = true) ∨
       ((Status.mk 2).is_failure = true ∧ (Status.mk 3).is_failure = true))) :=
  ⟨c9_status_semantics.2.1 7 (by decide) (by decide),
   c9_status_semantics.2.2.1 ⟨2⟩ ⟨3⟩ (by decide) (by decide)⟩

/-- Claim C10.  The two-byte sequence `[0x03, 0x00]` decodes to a
DOMAIN_NAME address with an empty domain byte string (the codec accepts a
zero length byte), and encoding that empty-domain value reproduces
exactly the same two bytes. -/
theorem c10_empty_domain_accepted :
    Address.read_from [3, 0] = .ok (.Domain [], []) ∧
    Address.write_to (.Domain []) = [3, 0] := by
  decide
